import Mathlib

/-!
Shallow embedding of the CounselFlow centralized data-management core:
the Data Management Hub service (query / mutate / cache / metrics),
the Data Context Provider (module requirements, permissions, preferences),
and the Module Data Adapter factory.

Machine integers do not occur on the verified paths; counters are `Nat`
and the running average query time is `ℚ`.  Redis and the relational
store are collaborators: the Redis contents are part of the hub state,
the SQL select pipeline composed by the query builder is a parameter of
the environment (`dbExec`), and collaborator failures (cache read /
write / delete, database write) are failure flags in the environment.
-/

deriving instance DecidableEq for Except

namespace CounselFlow

/-- First-match association lookup (Map.get / redis GET on a modelled
key-value list; later `storePut`/`setCache` prepend, so the head is the
newest binding). -/
def lookupAssoc {α : Type} : List (String × α) → String → Option α
  | [], _ => none
  | (k', v) :: rest, k => if k' = k then some v else lookupAssoc rest k

/-- Byte view of a string.  Buffer.from(s) is UTF-8; every string
serialized for cache keys in this development is ASCII, where the UTF-8
bytes coincide with the character codes. -/
def strBytes (s : String) : List Nat := s.data.map Char.toNat

def b64chars : List Char :=
  "ABCDEFGHIJKLMNOPQRSTUVWXYZabcdefghijklmnopqrstuvwxyz0123456789+/".data

def b64get (n : Nat) : Char := b64chars.getD n 'A'

/-- Standard base64 of a byte list (Buffer.toString in base64). -/
def base64encode : List Nat → List Char
  | [] => []
  | [a] => [b64get (a / 4), b64get (a % 4 * 16), '=', '=']
  | [a, b] => [b64get (a / 4), b64get (a % 4 * 16 + b / 16), b64get (b % 16 * 4), '=']
  | a :: b :: c :: rest =>
      b64get (a / 4) :: b64get (a % 4 * 16 + b / 16) ::
      b64get (b % 16 * 4 + c / 64) :: b64get (c % 64) :: base64encode rest

/-- Redis glob matching restricted to the `*` wildcard, the only
metacharacter occurring in the hub's patterns.  The fuel argument only
serves structural recursion: every recursive call shrinks the combined
length of pattern and subject, so `p.length + s.length + 1` units never
run out. -/
def globMatchAux : Nat → List Char → List Char → Bool
  | 0, _, _ => false
  | _ + 1, [], [] => true
  | f + 1, '*' :: ps, [] => globMatchAux f ps []
  | _ + 1, _ :: _, [] => false
  | _ + 1, [], _ :: _ => false
  | f + 1, '*' :: ps, c :: cs => globMatchAux f ps (c :: cs) || globMatchAux f ('*' :: ps) cs
  | f + 1, pc :: ps, c :: cs => pc == c && globMatchAux f ps cs

def globMatch (p s : List Char) : Bool := globMatchAux (p.length + s.length + 1) p s

def globMatchS (pat s : String) : Bool := globMatch pat.data s.data

/-- cacheConfig.prefix of the hub. -/
def cachePrefixStr : String := "dmh:"

/-- generateCacheKey: prefix, operation kind, and the first 16 base64
characters of the serialized data (slice(0,16) of the base64 string). -/
def generateCacheKey (type : String) (data : String) : String :=
  cachePrefixStr ++ type ++ ":" ++ ((base64encode (strBytes data)).take 16).asString

/-- Filter value shapes accepted by the query builder: scalar equality,
IN-list membership, or an explicit `\x7boperator, value\x7d` comparison. -/
inductive FilterVal where
  | scalar (v : String)
  | values (vs : List String)
  | withOp (op : String) (v : String)
deriving DecidableEq

abbrev Filters := List (String × FilterVal)

/-- DataQuery; optional fields are absent (undefined) when `none`. -/
structure DataQuery where
  entity : String
  filters : Option Filters := none
  relations : Option (List String) := none
  orderBy : Option (List (String × String)) := none
  limit : Option Nat := none
  offset : Option Nat := none
  cache : Option Bool := none
  cacheTTL : Option Nat := none
deriving DecidableEq

def jsonEscapeChar (c : Char) : String :=
  if c = '"' then "\\\"" else if c = '\\' then "\\\\" else c.toString

def jsonEscape (s : String) : String := String.join (s.data.map jsonEscapeChar)

def jsonStr (s : String) : String := "\"" ++ jsonEscape s ++ "\""

def jsonArr (elems : List String) : String :=
  "[" ++ String.intercalate "," elems ++ "]"

def jsonObj (fields : List (String × String)) : String :=
  "\x7b" ++ String.intercalate "," (fields.map (fun f => jsonStr f.1 ++ ":" ++ f.2)) ++ "\x7d"

def jsonOfFilterVal : FilterVal → String
  | .scalar v => jsonStr v
  | .values vs => jsonArr (vs.map jsonStr)
  | .withOp op v => jsonObj [("operator", jsonStr op), ("value", jsonStr v)]

def jsonOfBool (b : Bool) : String := if b then "true" else "false"

/-- JSON.stringify of a DataQuery object: fields in object insertion
order with undefined fields omitted.  Every hub call site writes
`entity` first, so the bytes that survive the 16-character key
truncation are the same under any call site's field order. -/
def jsonOfQuery (q : DataQuery) : String :=
  jsonObj (
    [("entity", jsonStr q.entity)]
    ++ (match q.filters with
        | some fs => [("filters", jsonObj (fs.map (fun p => (p.1, jsonOfFilterVal p.2))))]
        | none => [])
    ++ (match q.relations with
        | some rs => [("relations", jsonArr (rs.map jsonStr))]
        | none => [])
    ++ (match q.orderBy with
        | some os => [("orderBy", jsonObj (os.map (fun p => (p.1, jsonStr p.2))))]
        | none => [])
    ++ (match q.limit with | some n => [("limit", toString n)] | none => [])
    ++ (match q.offset with | some n => [("offset", toString n)] | none => [])
    ++ (match q.cache with | some b => [("cache", jsonOfBool b)] | none => [])
    ++ (match q.cacheTTL with | some n => [("cacheTTL", toString n)] | none => []))

def queryCacheKey (q : DataQuery) : String := generateCacheKey "query" (jsonOfQuery q)

/-- A stored record: field name to string value. -/
abbrev Record := List (String × String)

/-- The primary store: entity name to its rows. -/
abbrev Store := List (String × List Record)

def storeRows (st : Store) (entity : String) : List Record :=
  (lookupAssoc st entity).getD []

def storePut (st : Store) (entity : String) (rows : List Record) : Store :=
  (entity, rows) :: st

structure DataMutation where
  entity : String
  operation : String
  data : Record
  cascade : Bool := false
  validateRelations : Bool := false
  auditTrail : Bool := false
deriving DecidableEq

structure Metrics where
  queryCount : Nat
  cacheHits : Nat
  cacheMisses : Nat
  avgQueryTime : ℚ
  totalQueries : Nat
deriving DecidableEq

structure Event where
  name : String
  entity : String
  op : String
deriving DecidableEq

/-- Hub-visible state: the primary store, the Redis cache contents
(query-result entries), the running metrics, emitted events, and a
counter of storage round-trips (queryBuilder.getMany calls). -/
structure HubState where
  store : Store
  cache : List (String × List Record)
  metrics : Metrics
  events : List Event
  storageCalls : Nat
deriving DecidableEq

inductive HubErr where
  | repoNotFound (entity : String)
  | unsupportedOperation (op : String)
  | dbWriteFailed
  | cacheUnavailable
  | moduleNotFound (m : String)
  | permissionDenied
deriving DecidableEq

/-- Collaborator environment: the storage select pipeline the query
builder composes (relations / filters / order / limit run in the
database), and failure switches for the Redis client and database
writes. -/
structure Env where
  dbExec : DataQuery → Store → List Record
  getFails : Bool
  setFails : Bool
  delFails : Bool
  writeFails : Bool

/-- The repositories registered in registerRepositories. -/
def registeredEntities : List String :=
  ["Client", "Case", "Document", "User", "Message", "Payment", "Notification"]

/-- getFromCache: a Redis read failure is caught, logged, and returned
as null (a miss). -/
def getFromCache (env : Env) (cache : List (String × List Record)) (key : String) :
    Option (List Record) :=
  if env.getFails then none else lookupAssoc cache key

/-- setCache: a Redis write failure is caught and logged; the cache is
left unchanged. -/
def setCache (env : Env) (cache : List (String × List Record)) (key : String)
    (val : List Record) : List (String × List Record) :=
  if env.setFails then cache else (key, val) :: cache

def bumpQueryCount (s : HubState) : HubState :=
  { s with metrics := { s.metrics with queryCount := s.metrics.queryCount + 1 } }

def bumpCacheHits (s : HubState) : HubState :=
  { s with metrics := { s.metrics with cacheHits := s.metrics.cacheHits + 1 } }

def bumpCacheMisses (s : HubState) : HubState :=
  { s with metrics := { s.metrics with cacheMisses := s.metrics.cacheMisses + 1 } }

def recordStorageCall (s : HubState) : HubState :=
  { s with storageCalls := s.storageCalls + 1 }

def emitEvent (s : HubState) (e : Event) : HubState :=
  { s with events := e :: s.events }

/-- updateQueryMetrics: totalQueries++ and the incremental running
average (avg * (total - 1) + queryTime) / total with the incremented
total. -/
def updateQueryMetrics (qt : ℚ) (s : HubState) : HubState :=
  { s with metrics :=
    { s.metrics with
      totalQueries := s.metrics.totalQueries + 1
      avgQueryTime :=
        (s.metrics.avgQueryTime * (s.metrics.totalQueries : ℚ) + qt) /
          ((s.metrics.totalQueries : ℚ) + 1) } }

/-- The storage path of query: repository lookup, select execution,
optional result caching, metrics update, data.accessed event. -/
def runStorageQuery (env : Env) (qt : ℚ) (q : DataQuery) (s : HubState) (doCache : Bool) :
    Except HubErr (List Record) × HubState :=
  if q.entity ∈ registeredEntities then
    let results := env.dbExec q s.store
    let s1 := recordStorageCall s
    let s2 := if doCache then
        { s1 with cache := setCache env s1.cache (queryCacheKey q) results }
      else s1
    let s3 := updateQueryMetrics qt s2
    let s4 := emitEvent s3 ⟨"data.accessed", q.entity, "query"⟩
    (.ok results, s4)
  else
    (.error (.repoNotFound q.entity), s)

/-- query: queryCount++, then unless cache === false a cache probe
(hit: cacheHits++ and return cached; miss: cacheMisses++), then the
storage path; `qt` is the externally measured query latency. -/
def query (env : Env) (qt : ℚ) (q : DataQuery) (s : HubState) :
    Except HubErr (List Record) × HubState :=
  let s0 := bumpQueryCount s
  if q.cache ≠ some false then
    match getFromCache env s0.cache (queryCacheKey q) with
    | some r => (.ok r, bumpCacheHits s0)
    | none => runStorageQuery env qt q (bumpCacheMisses s0) true
  else
    runStorageQuery env qt q s0 false

def recordId (r : Record) : Option String := lookupAssoc r "id"

/-- repository.update's patch semantics: existing fields overwritten by
the payload, new payload fields appended. -/
def patchRecord (row patch : Record) : Record :=
  row.map (fun f => match lookupAssoc patch f.1 with | some v => (f.1, v) | none => f)
  ++ patch.filter (fun f => (lookupAssoc row f.1).isNone)

inductive MutResult where
  | created (r : Record)
  | found (r : Option Record)
  | affected (n : Nat)
deriving DecidableEq

/-- The transactional body of mutate, acting on the transaction's view
of the store: repository resolution (getRepository throws for an entity
outside the registered set), the placeholder relation validation, and
the operation dispatch.  A database write failure is env.writeFails. -/
def runOperation (env : Env) (m : DataMutation) (txStore : Store) :
    Except HubErr (Store × MutResult) :=
  if m.entity ∈ registeredEntities then
    -- validateEntityRelations: placeholder in the source, never throws
    match m.operation with
    | "create" =>
      if env.writeFails then .error .dbWriteFailed
      else
        let rows := storeRows txStore m.entity
        .ok (storePut txStore m.entity (rows ++ [m.data]), .created m.data)
    | "update" =>
      if env.writeFails then .error .dbWriteFailed
      else
        let rows := storeRows txStore m.entity
        let rows' := rows.map (fun row =>
          if recordId row == recordId m.data then patchRecord row m.data else row)
        let found := rows'.find? (fun row => recordId row == recordId m.data)
        .ok (storePut txStore m.entity rows', .found found)
    | "delete" =>
      if env.writeFails then .error .dbWriteFailed
      else
        let rows := storeRows txStore m.entity
        let kept := rows.filter (fun row => !(recordId row == recordId m.data))
        .ok (storePut txStore m.entity kept, .affected (rows.length - kept.length))
    | "upsert" =>
      if env.writeFails then .error .dbWriteFailed
      else
        let rows := storeRows txStore m.entity
        let rows' :=
          if (recordId m.data).isSome && rows.any (fun row => recordId row == recordId m.data)
          then rows.map (fun row => if recordId row == recordId m.data then m.data else row)
          else rows ++ [m.data]
        .ok (storePut txStore m.entity rows', .created m.data)
    | op => .error (.unsupportedOperation op)
  else
    .error (.repoNotFound m.entity)

/-- invalidateEntityCache: the coarse entity/id pattern passed to
redis KEYS. -/
def invalidatePattern (entity : String) (id? : Option String) : String :=
  match id? with
  | some id => cachePrefixStr ++ "*" ++ entity ++ "*" ++ id ++ "*"
  | none => cachePrefixStr ++ "*" ++ entity ++ "*"

/-- invalidateEntityCache deletes every cached key matching the
pattern.  Unlike getFromCache and setCache it has no try/catch, so a
Redis failure here is an error for the caller. -/
def invalidateEntityCache (env : Env) (s : HubState) (entity : String) (id? : Option String) :
    Except HubErr HubState :=
  if env.delFails then .error .cacheUnavailable
  else
    let kept := s.cache.filter (fun kv => ! globMatchS (invalidatePattern entity id?) kv.1)
    .ok { s with cache := kept }

/-- mutate: start a transaction, run the body on the transaction's
view, commit on success, then invalidate the entity's cache entries,
write the (placeholder) audit entry, emit data.mutated, and run the
(placeholder) real-time sync.  On a body failure the transaction is
rolled back (the pre-call store stands) and the body's error is
re-raised.  An invalidation failure is caught after the commit, where
rollback can no longer undo the committed store, and re-raised. -/
def mutate (env : Env) (m : DataMutation) (s : HubState) :
    Except HubErr MutResult × HubState :=
  match runOperation env m s.store with
  | .error e => (.error e, s)
  | .ok (store', result) =>
    let s1 := { s with store := store' }
    match invalidateEntityCache env s1 m.entity (recordId m.data) with
    | .error e => (.error e, s1)
    | .ok s2 =>
      -- createAuditEntry: placeholder, no effect
      let s3 := emitEvent s2 ⟨"data.mutated", m.entity, m.operation⟩
      -- syncRealTimeData: placeholder, no effect (enableRealTimeSync is true)
      (.ok result, s3)

/-- getPerformanceMetrics' derived ratio: (cacheHits / totalQueries)
as a percentage, 0 when totalQueries is 0. -/
def cacheHitRate (m : Metrics) : ℚ :=
  if m.totalQueries > 0 then ((m.cacheHits : ℚ) / (m.totalQueries : ℚ)) * 100 else 0

/-- getPerformanceMetrics: the counter snapshot plus the derived
cache-hit ratio. -/
def getPerformanceMetrics (s : HubState) : Metrics × ℚ :=
  (s.metrics, cacheHitRate s.metrics)

/-- clearCache: delete all keys matching the pattern (default: all
hub-prefixed keys); failures are caught and only logged. -/
def clearCache (env : Env) (s : HubState) (pat : Option String) : HubState :=
  if env.delFails then s
  else
    let kept := s.cache.filter (fun kv => ! globMatchS (pat.getD (cachePrefixStr ++ "*")) kv.1)
    { s with cache := kept }

structure ModuleDataRequirements where
  primary : List String
  secondary : List String
  relations : List String
  permissions : List String
  cacheStrategy : String
  realTimeSync : Bool
deriving DecidableEq

/-- initializeModuleRequirements: the seven registry entries. -/
def moduleRequirements : List (String × ModuleDataRequirements) :=
  [ ("client-portal",
      ⟨["Client", "Case", "Document"], ["Message", "Payment", "Notification"],
       ["client.cases", "case.documents", "client.payments"],
       ["client.read", "case.read", "document.read"], "aggressive", true⟩),
    ("ai-assistant",
      ⟨["Case", "Document", "Client"], ["LegalQuery", "ResearchTask"],
       ["case.client", "document.case"],
       ["ai.query", "document.analyze"], "moderate", false⟩),
    ("document-management",
      ⟨["Document", "Case", "Client"], ["DocumentVersion", "Comment"],
       ["document.case", "document.versions", "case.client"],
       ["document.read", "document.write"], "moderate", true⟩),
    ("legal-research",
      ⟨["ResearchTask", "CaseLaw", "Statute"], ["Citation", "LegalDatabase"],
       ["research.citations", "task.assignee"],
       ["research.read", "research.create"], "aggressive", false⟩),
    ("workflow-automation",
      ⟨["Workflow", "Task", "Case"], ["WorkflowStep", "Automation"],
       ["workflow.tasks", "task.case"],
       ["workflow.read", "workflow.execute"], "minimal", true⟩),
    ("integration-management",
      ⟨["Integration", "ApiKey", "Webhook"], ["IntegrationLog", "SyncStatus"],
       ["integration.logs", "apikey.usage"],
       ["integration.read", "api.manage"], "moderate", true⟩),
    ("entity-management",
      ⟨["Entity", "CorporateEvent", "ComplianceRecord"], ["Filing", "EntityRelation"],
       ["entity.events", "entity.compliance"],
       ["entity.read", "entity.manage"], "moderate", true⟩) ]

def lookupReq (m : String) : Option ModuleDataRequirements :=
  lookupAssoc moduleRequirements m

structure DataContext where
  userId : String
  userRole : String
  module : String
  action : String
  entityId : Option String := none
  filters : Option Filters := none
deriving DecidableEq

structure UserDataPreferences where
  defaultPageSize : Nat
  preferredOrderBy : List (String × String)
  hiddenFields : List String
  autoRefresh : Bool
  realTimeNotifications : Bool
deriving DecidableEq

def defaultPreferences : UserDataPreferences :=
  ⟨25, [("createdAt", "DESC")], [], true, true⟩

structure ResponseMetadata where
  totalCount : Nat
  hasMore : Bool
  cached : Bool
  permissions : List String
  suggestedActions : List String
deriving DecidableEq

structure ContextualDataResponse where
  primary : List Record
  secondary : List Record
  related : List Record
  metadata : ResponseMetadata
deriving DecidableEq

/-- The per-user frequent-action entry kept in the provider's
in-process user context cache. -/
structure UserCtxEntry where
  frequentActions : List String
deriving DecidableEq

/-- Context Provider state: the hub state it drives, the per-user
preference cache, and the per-user/per-module context cache. -/
structure CPState where
  hub : HubState
  prefsCache : List (String × UserDataPreferences)
  ctxCache : List (String × UserCtxEntry)
deriving DecidableEq

/-- getUserPreferences: serve from the user context cache, else
materialize the defaults and cache them. -/
def getUserPreferences (st : CPState) (userId : String) :
    UserDataPreferences × CPState :=
  match lookupAssoc st.prefsCache ("preferences:" ++ userId) with
  | some p => (p, st)
  | none =>
    (defaultPreferences,
     { st with prefsCache :=
         ("preferences:" ++ userId, defaultPreferences) :: st.prefsCache })

/-- Sequential hub queries whose results are concatenated
(push(...data) per entity); the first failure aborts the loop. -/
def queryEach (env : Env) : List DataQuery → HubState →
    Except HubErr (List Record) × HubState
  | [], s => (.ok [], s)
  | q :: rest, s =>
    match query env 0 q s with
    | (.error e, s') => (.error e, s')
    | (.ok data, s') =>
      match queryEach env rest s' with
      | (.error e, s'') => (.error e, s'')
      | (.ok acc, s'') => (.ok (data ++ acc), s'')

/-- getPrimaryData: one hub query per primary entity with the context's
filters, the user's page size and order preference, caching enabled
unless the strategy is minimal. -/
def getPrimaryData (env : Env) (ctx : DataContext) (req : ModuleDataRequirements)
    (prefs : UserDataPreferences) (h : HubState) :
    Except HubErr (List Record) × HubState :=
  queryEach env
    (req.primary.map (fun e =>
      { entity := e, filters := ctx.filters,
        orderBy := some prefs.preferredOrderBy,
        limit := some prefs.defaultPageSize,
        cache := some (req.cacheStrategy != "minimal") }))
    h

/-- getSecondaryData: one hub query per secondary entity, capped at
min(page size, 10), always cached. -/
def getSecondaryData (env : Env) (ctx : DataContext) (req : ModuleDataRequirements)
    (prefs : UserDataPreferences) (h : HubState) :
    Except HubErr (List Record) × HubState :=
  queryEach env
    (req.secondary.map (fun e =>
      { entity := e, filters := ctx.filters,
        limit := some (min prefs.defaultPageSize 10),
        cache := some true }))
    h

/-- buildMetadata: count from the primary data length, hasMore when
the primary count equals the page size, cached flag from the strategy,
the module's declared permissions, and the placeholder suggested
actions. -/
def buildMetadata (prefs : UserDataPreferences) (primaryData : List Record)
    (req : ModuleDataRequirements) : ResponseMetadata :=
  { totalCount := primaryData.length
    hasMore := primaryData.length == prefs.defaultPageSize
    cached := req.cacheStrategy != "minimal"
    permissions := req.permissions
    suggestedActions := ["view", "edit", "delete", "share"] }

/-- getFrequentActions: placeholder list from the source. -/
def getFrequentActions : List String := ["view", "create", "search", "edit"]

/-- updateUserContext: merge-write the per-user/per-module context
entry (new fields overwrite). -/
def updateUserContext (st : CPState) (userId module : String) : CPState :=
  { st with ctxCache :=
      ("context:" ++ userId ++ ":" ++ module, ⟨getFrequentActions⟩) :: st.ctxCache }

/-- getModuleData: requirements lookup, the (placeholder, no-op)
permission validation, preference resolution, primary and secondary
hub queries, placeholder related data, metadata assembly, the
(placeholder) predictive prefetch, and the context cache update. -/
def getModuleData (env : Env) (ctx : DataContext) (st : CPState) :
    Except HubErr ContextualDataResponse × CPState :=
  match lookupReq ctx.module with
  | none => (.error (.moduleNotFound ctx.module), st)
  | some req =>
    -- validateUserPermissions: placeholder in the source, performs no
    -- check and never throws
    let pst := getUserPreferences st ctx.userId
    let prefs := pst.1
    let st1 := pst.2
    match getPrimaryData env ctx req prefs st1.hub with
    | (.error e, h') => (.error e, { st1 with hub := h' })
    | (.ok primaryData, h') =>
      match getSecondaryData env ctx req prefs h' with
      | (.error e, h'') => (.error e, { st1 with hub := h'' })
      | (.ok secondaryData, h'') =>
        -- getRelatedData: placeholder in the source, returns []
        let relatedData : List Record := []
        let meta := buildMetadata prefs primaryData req
        -- prefetchPredictiveData: placeholder chain behind a
        -- try/catch, no observable effect
        let st2 := updateUserContext { st1 with hub := h'' } ctx.userId ctx.module
        (.ok ⟨primaryData, secondaryData, relatedData, meta⟩, st2)

/-- Adapter construction configuration (module name and feature
switches) as passed by each concrete adapter's constructor. -/
structure AdapterConfig where
  moduleName : String
  autoCache : Bool
  realTimeSync : Bool
  enablePredictive : Bool
deriving DecidableEq

/-- initializeAdapters: the three adapters the factory constructs. -/
def adapters : List (String × AdapterConfig) :=
  [ ("client-portal", ⟨"client-portal", true, true, true⟩),
    ("ai-assistant", ⟨"ai-assistant", true, false, true⟩),
    ("document-management", ⟨"document-management", true, true, false⟩) ]

/-- ModuleDataAdapterFactory.getAdapter: map lookup, null when
absent. -/
def getAdapter (moduleName : String) : Option AdapterConfig :=
  lookupAssoc adapters moduleName

/-!
Concrete fixtures: a Client store with one row, the standard
environment with a lookup-based select collaborator and a healthy
Redis, the spec's example query, and states reached by running the
hub operations.
-/

def rowA : Record := [("id", "c1"), ("status", "ACTIVE")]

def rowB : Record := [("id", "c2"), ("status", "ACTIVE")]

def envStd : Env := ⟨fun q st => storeRows st q.entity, false, false, false, false⟩

def envDel : Env := ⟨fun q st => storeRows st q.entity, false, false, true, false⟩

def envWF : Env := ⟨fun q st => storeRows st q.entity, false, false, false, true⟩

def zeroMetrics : Metrics := ⟨0, 0, 0, 0, 0⟩

def qClient : DataQuery :=
  { entity := "Client", filters := some [("status", FilterVal.scalar "ACTIVE")],
    limit := some 25 }

def qClient2 : DataQuery :=
  { entity := "Client", filters := some [("status", FilterVal.scalar "CLOSED")],
    limit := some 50 }

def st0 : HubState := ⟨[("Client", [rowA])], [], zeroMetrics, [], 0⟩

def st1 : HubState := (query envStd 0 qClient st0).2

def mutB : DataMutation := { entity := "Client", operation := "create", data := rowB }

def st2 : HubState := (mutate envStd mutB st1).2

def mutArchCase : DataMutation := { entity := "Case", operation := "archive", data := rowB }

def mutArchNon : DataMutation := { entity := "Nonsense", operation := "archive", data := rowB }

def ctxLR : DataContext :=
  { userId := "u1", userRole := "paralegal", module := "legal-research", action := "view" }

def cp0 : CPState := ⟨⟨[], [], zeroMetrics, [], 0⟩, [], []⟩

def stRatioW : HubState := ⟨[], [], ⟨5, 1, 3, 0, 4⟩, [], 0⟩

def stZeroW : HubState := ⟨[], [], zeroMetrics, [], 0⟩

/-!
Helper lemmas about base64 chunking, association-list lookup, and the
hit/miss branches of query.
-/

theorem base64encode_append : ∀ (l m : List Nat), l.length % 3 = 0 →
    base64encode (l ++ m) = base64encode l ++ base64encode m
  | [], m, _ => by simp [base64encode]
  | [a], _, h => by simp at h
  | [a, b], _, h => by simp at h
  | a :: b :: c :: rest, m, h => by
    have hr : rest.length % 3 = 0 := by
      simp only [List.length_cons] at h
      omega
    simp only [List.cons_append, base64encode, List.append_eq]
    rw [base64encode_append rest m hr]

theorem base64encode_length : ∀ (l : List Nat), l.length % 3 = 0 →
    (base64encode l).length = l.length / 3 * 4
  | [], _ => by simp [base64encode]
  | [a], h => by simp at h
  | [a, b], h => by simp at h
  | a :: b :: c :: rest, h => by
    have hr : rest.length % 3 = 0 := by
      simp only [List.length_cons] at h
      omega
    simp only [base64encode, List.length_cons]
    rw [base64encode_length rest hr]
    omega

/-- The first 16 base64 characters of a string of at least 12 bytes
are the base64 of its first 12 bytes: 12 bytes fill four whole 3-byte
groups, so no padding reaches the kept prefix. -/
theorem b64_take16 (u : List Char) (hu : 12 ≤ u.length) :
    (base64encode (u.map Char.toNat)).take 16
      = base64encode ((u.take 12).map Char.toNat) := by
  have hsplit : u = u.take 12 ++ u.drop 12 := (List.take_append_drop 12 u).symm
  have hlen : ((u.take 12).map Char.toNat).length = 12 := by
    simp [List.length_take, Nat.min_eq_left hu]
  have hmod : ((u.take 12).map Char.toNat).length % 3 = 0 := by rw [hlen]
  have henc : (base64encode ((u.take 12).map Char.toNat)).length = 16 := by
    rw [base64encode_length _ hmod, hlen]
  calc (base64encode (u.map Char.toNat)).take 16
      = (base64encode ((u.take 12 ++ u.drop 12).map Char.toNat)).take 16 := by
        rw [← hsplit]
    _ = (base64encode ((u.take 12).map Char.toNat
          ++ (u.drop 12).map Char.toNat)).take 16 := by
        rw [List.map_append]
    _ = (base64encode ((u.take 12).map Char.toNat)
          ++ base64encode ((u.drop 12).map Char.toNat)).take 16 := by
        rw [base64encode_append _ _ hmod]
    _ = base64encode ((u.take 12).map Char.toNat) := List.take_left' henc

theorem lookupAssoc_cons_self {α : Type} (k : String) (v : α) (c : List (String × α)) :
    lookupAssoc ((k, v) :: c) k = some v := by
  simp [lookupAssoc]

/-- query on a cache hit returns the cached records and only bumps
queryCount and cacheHits. -/
theorem query_hit (env : Env) (qt : ℚ) (q : DataQuery) (s : HubState) (r : List Record)
    (hg : env.getFails = false) (hc : q.cache ≠ some false)
    (hl : lookupAssoc s.cache (queryCacheKey q) = some r) :
    query env qt q s = (.ok r, bumpCacheHits (bumpQueryCount s)) := by
  unfold query
  rw [if_pos hc]
  have hget : getFromCache env (bumpQueryCount s).cache (queryCacheKey q) = some r := by
    unfold getFromCache bumpQueryCount
    rw [hg]
    simpa using hl
  rw [hget]

/-- query on a cache miss proceeds to the storage path with
queryCount and cacheMisses bumped and caching enabled. -/
theorem query_miss (env : Env) (qt : ℚ) (q : DataQuery) (s : HubState)
    (hg : env.getFails = false) (hc : q.cache ≠ some false)
    (hl : lookupAssoc s.cache (queryCacheKey q) = none) :
    query env qt q s = runStorageQuery env qt q (bumpCacheMisses (bumpQueryCount s)) true := by
  unfold query
  rw [if_pos hc]
  have hget : getFromCache env (bumpQueryCount s).cache (queryCacheKey q) = none := by
    unfold getFromCache bumpQueryCount
    rw [hg]
    simpa using hl
  rw [hget]

theorem runStorageQuery_ok (env : Env) (qt : ℚ) (q : DataQuery) (s : HubState)
    (doCache : Bool) (r : List Record)
    (h : (runStorageQuery env qt q s doCache).1 = .ok r) :
    q.entity ∈ registeredEntities ∧ r = env.dbExec q s.store := by
  unfold runStorageQuery at h
  by_cases hent : q.entity ∈ registeredEntities
  · rw [if_pos hent] at h
    simp at h
    exact ⟨hent, h.symm⟩
  · rw [if_neg hent] at h
    simp at h

theorem runStorageQuery_cache (env : Env) (qt : ℚ) (q : DataQuery) (s : HubState)
    (hsf : env.setFails = false) (hent : q.entity ∈ registeredEntities) :
    (runStorageQuery env qt q s true).2.cache
      = (queryCacheKey q, env.dbExec q s.store) :: s.cache := by
  unfold runStorageQuery
  rw [if_pos hent]
  simp [setCache, hsf, emitEvent, updateQueryMetrics, recordStorageCall]

/-- C1: the claim that every cache entry that could hold now-stale
data for a mutated entity is invalidated fails on the code.  Query
cache keys are truncated base64 of the serialized query and never
contain the literal entity name, so invalidateEntityCache's
`dmh:*Client*c2*` pattern matches none of them: after a cached Client
query, a successful create on Client leaves the cache untouched and
the next identical query is served the stale pre-mutation records,
missing the row a fresh select would return. -/
theorem mutate_leaves_stale_client_cache :
    (query envStd 0 qClient st0).1 = .ok [rowA] ∧
    lookupAssoc st1.cache (queryCacheKey qClient) = some [rowA] ∧
    (mutate envStd mutB st1).1 = .ok (.created rowB) ∧
    st2.cache = st1.cache ∧
    (query envStd 0 qClient st2).1 = .ok [rowA] ∧
    envStd.dbExec qClient st2.store ≠ [rowA] :=
  ⟨by decide, by decide, by decide, by decide, by decide, by decide⟩

/-- C2 counterexample: cacheHitRatio is not the plain quotient
cacheHits / totalQueries: at 1 hit out of 4 queries the code returns
25, not 1/4 (the source multiplies by 100). -/
theorem cacheHitRate_not_plain_quotient :
    (getPerformanceMetrics stRatioW).2
      ≠ (stRatioW.metrics.cacheHits : ℚ) / (stRatioW.metrics.totalQueries : ℚ) := by
  norm_num [getPerformanceMetrics, cacheHitRate, stRatioW]

/-- C2 amended: cacheHitRatio is the cache-hit percentage: it is 0
when totalQueries is 0 (no division by zero), and for positive
totalQueries it satisfies ratio * totalQueries = cacheHits * 100,
i.e. it equals (cacheHits / totalQueries) * 100. -/
theorem cacheHitRate_percentage (s : HubState) :
    (s.metrics.totalQueries = 0 → (getPerformanceMetrics s).2 = 0) ∧
    (0 < s.metrics.totalQueries →
      (getPerformanceMetrics s).2 * (s.metrics.totalQueries : ℚ)
        = (s.metrics.cacheHits : ℚ) * 100) := by
  unfold getPerformanceMetrics cacheHitRate
  constructor
  · intro h
    rw [h]
    simp
  · intro h
    rw [if_pos h]
    have hne : ((s.metrics.totalQueries : ℚ)) ≠ 0 := Nat.cast_ne_zero.mpr h.ne'
    field_simp

theorem cacheHitRate_percentage_witness :
    (0 < stRatioW.metrics.totalQueries ∧
      (getPerformanceMetrics stRatioW).2 * (stRatioW.metrics.totalQueries : ℚ)
        = (stRatioW.metrics.cacheHits : ℚ) * 100) ∧
    (getPerformanceMetrics stZeroW).2 = 0 :=
  ⟨⟨by decide, (cacheHitRate_percentage stRatioW).2 (by decide)⟩,
   (cacheHitRate_percentage stZeroW).1 rfl⟩

/-- C3 counterexample: two structurally different queries (different
filters and different limit) receive the same cache key, because the
key keeps only the first 16 base64 characters, i.e. the first 12
bytes, of the serialized query. -/
theorem distinct_queries_share_cache_key :
    qClient ≠ qClient2 ∧ queryCacheKey qClient = queryCacheKey qClient2 :=
  ⟨by decide, by decide⟩

/-- C3 amended: cache-key derivation is a pure function of the
serialized query shape, but it depends only on the first 12 bytes of
the serialization: any two serialized shapes of length at least 12
that agree on their first 12 bytes receive the same key.  Identical
requests therefore always share a key, while different requests
collide deterministically whenever their JSON prefixes agree. -/
theorem generateCacheKey_eq_of_take12 (ty : String) (s t : String)
    (hs : 12 ≤ s.data.length) (ht : 12 ≤ t.data.length)
    (h : s.data.take 12 = t.data.take 12) :
    generateCacheKey ty s = generateCacheKey ty t := by
  unfold generateCacheKey strBytes
  rw [b64_take16 s.data hs, b64_take16 t.data ht, h]

theorem generateCacheKey_eq_of_take12_witness :
    generateCacheKey "query" (jsonOfQuery qClient)
      = generateCacheKey "query" (jsonOfQuery qClient2) :=
  generateCacheKey_eq_of_take12 "query" _ _ (by decide) (by decide) (by decide)

/-- C4: when any stage of mutate's transactional body fails, the
transaction is rolled back: the hub state (store, cache, metrics,
events) is exactly the pre-call state and the body's error is
re-raised unchanged. -/
theorem mutate_rollback_on_body_error (env : Env) (m : DataMutation) (s : HubState)
    (e : HubErr) (h : runOperation env m s.store = .error e) :
    mutate env m s = (.error e, s) := by
  unfold mutate
  rw [h]

theorem mutate_rollback_on_body_error_witness :
    mutate envWF mutB st0 = (.error .dbWriteFailed, st0) :=
  mutate_rollback_on_body_error envWF mutB st0 .dbWriteFailed rfl

/-- C5: getModuleData never fails with PermissionDenied, because
validateUserPermissions is an empty placeholder: for the
legal-research module and a role lacking research.read, the call
issues a Data Hub query (queryCount becomes 1) and fails only because
the module's first primary entity has no registered repository. -/
theorem getModuleData_skips_permission_check :
    (getModuleData envStd ctxLR cp0).1 = .error (.repoNotFound "ResearchTask") ∧
    (getModuleData envStd ctxLR cp0).1 ≠ .error .permissionDenied ∧
    (getModuleData envStd ctxLR cp0).2.hub.metrics.queryCount = 1 :=
  ⟨by decide, by decide, by decide⟩

/-- C6: a cache delete failure is propagated to mutate's caller:
invalidateEntityCache has no try/catch, so with a failing Redis
delete a successful create commits to the store and the call still
rejects with the cache error instead of returning the mutation
result. -/
theorem mutate_propagates_cache_delete_failure :
    (mutate envDel mutB st0).1 = .error .cacheUnavailable ∧
    storeRows (mutate envDel mutB st0).2.store "Client" = [rowA, rowB] :=
  ⟨by decide, by decide⟩

/-- C7 counterexample: a mutation whose operation is "archive" on an
entity with no registered repository fails with the repository error,
not with UnsupportedOperation, because getRepository throws before
the operation dispatch. -/
theorem archive_on_unknown_entity_not_unsupported :
    (mutate envStd mutArchNon st0).1 = .error (.repoNotFound "Nonsense") ∧
    (mutate envStd mutArchNon st0).1 ≠ .error (.unsupportedOperation "archive") ∧
    (mutate envStd mutArchNon st0).2 = st0 :=
  ⟨by decide, by decide, rfl⟩

/-- C7 amended: for a mutation on a registered entity whose operation
string is outside create / update / delete / upsert, mutate fails
with UnsupportedOperation naming that operation and the hub state,
including the primary store, is unchanged (no transaction
committed). -/
theorem mutate_unsupported_on_registered_entity (env : Env) (m : DataMutation)
    (s : HubState) (hent : m.entity ∈ registeredEntities)
    (hop : m.operation ∉ (["create", "update", "delete", "upsert"] : List String)) :
    mutate env m s = (.error (.unsupportedOperation m.operation), s) := by
  have hrun : runOperation env m s.store = .error (.unsupportedOperation m.operation) := by
    unfold runOperation
    rw [if_pos hent]
    split
    all_goals simp_all
  unfold mutate
  rw [hrun]

theorem mutate_unsupported_on_registered_entity_witness :
    mutate envStd mutArchCase st0 = (.error (.unsupportedOperation "archive"), st0) :=
  mutate_unsupported_on_registered_entity envStd mutArchCase st0 (by decide) (by decide)

/-- C8: a cached query repeated with the identical shape (healthy
cache, cache not disabled, no intervening operation) is answered on
the second call with the first call's results, without a storage
round-trip, and with the cache-hit counter incremented. -/
theorem query_second_cached (env : Env) (qt qt' : ℚ) (q : DataQuery) (s : HubState)
    (r : List Record)
    (hg : env.getFails = false) (hsf : env.setFails = false) (hc : q.cache ≠ some false)
    (h1 : (query env qt q s).1 = .ok r) :
    (query env qt' q (query env qt q s).2).1 = .ok r ∧
    (query env qt' q (query env qt q s).2).2.storageCalls
      = (query env qt q s).2.storageCalls ∧
    (query env qt' q (query env qt q s).2).2.metrics.cacheHits
      = (query env qt q s).2.metrics.cacheHits + 1 := by
  have hkey : lookupAssoc (query env qt q s).2.cache (queryCacheKey q) = some r := by
    cases hl : lookupAssoc s.cache (queryCacheKey q) with
    | some r0 =>
      have hq := query_hit env qt q s r0 hg hc hl
      rw [hq] at h1
      simp at h1
      rw [hq]
      subst h1
      simpa [bumpCacheHits, bumpQueryCount] using hl
    | none =>
      have hq := query_miss env qt q s hg hc hl
      rw [hq] at h1
      obtain ⟨hent, hr⟩ := runStorageQuery_ok _ _ _ _ _ _ h1
      rw [hq, runStorageQuery_cache env qt q _ hsf hent]
      rw [hr]
      exact lookupAssoc_cons_self _ _ _
  have h2 := query_hit env qt' q (query env qt q s).2 r hg hc hkey
  rw [h2]
  simp [bumpCacheHits, bumpQueryCount]

theorem query_second_cached_witness :
    (query envStd 0 qClient (query envStd 0 qClient st0).2).1 = .ok [rowA] ∧
    (query envStd 0 qClient (query envStd 0 qClient st0).2).2.storageCalls
      = (query envStd 0 qClient st0).2.storageCalls ∧
    (query envStd 0 qClient (query envStd 0 qClient st0).2).2.metrics.cacheHits
      = (query envStd 0 qClient st0).2.metrics.cacheHits + 1 :=
  query_second_cached envStd 0 0 qClient st0 [rowA] rfl rfl (by decide) (by decide)

/-- C9: a query answered from cache changes only queryCount and
cacheHits: totalQueries, cacheMisses, avgQueryTime, the emitted
events (no data.accessed), the store, the cache contents, and the
storage-call counter are all unchanged. -/
theorem query_hit_frame (env : Env) (qt : ℚ) (q : DataQuery) (s : HubState)
    (r : List Record)
    (hg : env.getFails = false) (hc : q.cache ≠ some false)
    (hl : lookupAssoc s.cache (queryCacheKey q) = some r) :
    (query env qt q s).1 = .ok r ∧
    (query env qt q s).2.metrics.queryCount = s.metrics.queryCount + 1 ∧
    (query env qt q s).2.metrics.cacheHits = s.metrics.cacheHits + 1 ∧
    (query env qt q s).2.metrics.totalQueries = s.metrics.totalQueries ∧
    (query env qt q s).2.metrics.cacheMisses = s.metrics.cacheMisses ∧
    (query env qt q s).2.metrics.avgQueryTime = s.metrics.avgQueryTime ∧
    (query env qt q s).2.events = s.events ∧
    (query env qt q s).2.store = s.store ∧
    (query env qt q s).2.cache = s.cache ∧
    (query env qt q s).2.storageCalls = s.storageCalls := by
  rw [query_hit env qt q s r hg hc hl]
  simp [bumpCacheHits, bumpQueryCount]

theorem query_hit_frame_witness :
    (query envStd 0 qClient st1).1 = .ok [rowA] ∧
    (query envStd 0 qClient st1).2.metrics.queryCount = st1.metrics.queryCount + 1 ∧
    (query envStd 0 qClient st1).2.metrics.cacheHits = st1.metrics.cacheHits + 1 ∧
    (query envStd 0 qClient st1).2.metrics.totalQueries = st1.metrics.totalQueries ∧
    (query envStd 0 qClient st1).2.metrics.cacheMisses = st1.metrics.cacheMisses ∧
    (query envStd 0 qClient st1).2.metrics.avgQueryTime = st1.metrics.avgQueryTime ∧
    (query envStd 0 qClient st1).2.events = st1.events ∧
    (query envStd 0 qClient st1).2.store = st1.store ∧
    (query envStd 0 qClient st1).2.cache = st1.cache ∧
    (query envStd 0 qClient st1).2.storageCalls = st1.storageCalls :=
  query_hit_frame envStd 0 qClient st1 [rowA] rfl (by decide) (by decide)

/-- C10: the adapter factory resolves an adapter exactly for
client-portal, ai-assistant, and document-management, and returns
null for every other module name; the four further modules declared
by the requirements registry (legal-research, workflow-automation,
integration-management, entity-management) are registered there but
have no adapter. -/
theorem adapter_factory_exactly_three :
    (∀ n : String, (getAdapter n).isSome ↔
      (n = "client-portal" ∨ n = "ai-assistant" ∨ n = "document-management")) ∧
    (∀ n ∈ (["legal-research", "workflow-automation", "integration-management",
             "entity-management"] : List String),
      (lookupReq n).isSome ∧ getAdapter n = none) := by
  constructor
  · intro n
    by_cases h1 : "client-portal" = n <;> by_cases h2 : "ai-assistant" = n <;>
      by_cases h3 : "document-management" = n <;>
      (simp [getAdapter, adapters, lookupAssoc, h1, h2, h3]; try tauto)
  · intro n hn
    fin_cases hn <;> exact ⟨by decide, by decide⟩

theorem adapter_factory_exactly_three_witness :
    (getAdapter "client-portal").isSome ∧
    (lookupReq "legal-research").isSome ∧ getAdapter "legal-research" = none :=
  ⟨(adapter_factory_exactly_three.1 "client-portal").mpr (Or.inl rfl),
   (adapter_factory_exactly_three.2 "legal-research" (by decide)).1,
   (adapter_factory_exactly_three.2 "legal-research" (by decide)).2⟩

end CounselFlow
